import Mathlib

/-!
Verification of the film-voting core of `bot.py` (class `FilmVotingBot`).

The SQLite-backed state is embedded shallowly: the three tables `films`,
`rounds` and `votes` become lists of records kept in insertion (rowid)
order, and the `AUTOINCREMENT` columns become explicit next-id counters.
Scores are rationals (the SQL literals 0.5 and 1.0 are exact in both
SQLite REAL and in the rationals, and every sum the code forms is a sum
of such literals).

Note on foreign keys: the Python code declares `FOREIGN KEY` clauses in
`CREATE TABLE votes` but never issues `PRAGMA foreign_keys = ON`; the
sqlite3 default leaves foreign-key enforcement off, so an `INSERT` with
a dangling `film_id` succeeds at runtime. The embedding reproduces the
runtime behaviour.
-/

/-- A row of the `films` table: `id INTEGER PRIMARY KEY AUTOINCREMENT`,
`title TEXT UNIQUE NOT NULL`. -/
structure Film where
  id : Nat
  title : String
deriving DecidableEq

/-- A row of the `rounds` table: `id`, `name`, `is_active` (the
`created_at` timestamp plays no role in any operation and is omitted). -/
structure Round where
  id : Nat
  name : String
  is_active : Bool
deriving DecidableEq

/-- A row of the `votes` table: `id`, `user_id`, `film_id`, `round_id`,
`seen` (again without the inert `created_at`). -/
structure Vote where
  id : Nat
  user_id : Nat
  film_id : Nat
  round_id : Nat
  seen : Bool
deriving DecidableEq

/-- The whole database state: the three tables in rowid order together
with the autoincrement counters. -/
structure DB where
  films : List Film
  rounds : List Round
  votes : List Vote
  nextFilmId : Nat
  nextRoundId : Nat
  nextVoteId : Nat
deriving DecidableEq

/-- Result of `add_vote`, distinguishing the code's three exits: normal
return `True`; the early `return False` when `get_active_round` finds no
row ("No active round found"); and the `sqlite3.IntegrityError` handler
hit when `UNIQUE(user_id, round_id)` is violated ("already voted"). -/
inductive VoteResult where
  | ok
  | noActiveRound
  | duplicateVote
deriving DecidableEq

/-- `init_database` on a fresh store: empty `films` and `votes`, and the
bootstrap row `('Round 1', 1)` inserted because no active round exists.
Autoincrement ids start at 1. -/
def initState : DB :=
  { films := [], rounds := [⟨1, "Round 1", true⟩], votes := [],
    nextFilmId := 1, nextRoundId := 2, nextVoteId := 1 }

/-- `get_active_round`: `SELECT id FROM rounds WHERE is_active = 1`,
`fetchone` returning the first matching row in rowid order, or `None`. -/
def getActiveRound (db : DB) : Option Nat :=
  (db.rounds.find? (fun rd => rd.is_active)).map (fun rd => rd.id)

/-- `has_user_voted_in_round`: `COUNT(*) > 0` over
`votes WHERE user_id = ? AND round_id = ?`. -/
def hasUserVotedInRound (u r : Nat) (db : DB) : Bool :=
  db.votes.any (fun v => v.user_id == u && v.round_id == r)

/-- `add_vote(user_id, film_id, seen)`: resolves the active round itself
(there is no round parameter), returns `False` when none exists, then
`INSERT INTO votes (user_id, film_id, round_id, seen)`.  The insert
fails (IntegrityError, caught and turned into `False`) exactly when the
`UNIQUE(user_id, round_id)` constraint is violated; with sqlite3's
default `PRAGMA foreign_keys = OFF`, a dangling `film_id` does not make
the insert fail. -/
def addVote (u f : Nat) (sn : Bool) (db : DB) : VoteResult × DB :=
  match getActiveRound db with
  | none => (.noActiveRound, db)
  | some r =>
    if hasUserVotedInRound u r db then
      (.duplicateVote, db)
    else
      (.ok, { db with votes := db.votes ++ [⟨db.nextVoteId, u, f, r, sn⟩],
                      nextVoteId := db.nextVoteId + 1 })

/-- `add_film(title)`: `INSERT INTO films (title) VALUES (?)`; the
`UNIQUE` constraint on `title` (exact, case-sensitive BINARY collation)
is the only thing that can reject the insert.  No validation of the
title happens before the insert. -/
def addFilm (title : String) (db : DB) : Bool × DB :=
  if db.films.any (fun f => f.title == title) then
    (false, db)
  else
    (true, { db with films := db.films ++ [⟨db.nextFilmId, title⟩],
                     nextFilmId := db.nextFilmId + 1 })

/-- Per-ballot score of the SQL `CASE WHEN v.seen = 1 THEN 0.5 WHEN
v.seen = 0 THEN 1.0 ELSE 0 END`. -/
def voteScore (v : Vote) : ℚ := if v.seen then 1/2 else 1

/-- The aggregate one `GROUP BY f.id` group contributes in
`get_results`: the sum of `voteScore` over the votes matched by
`LEFT JOIN votes v ON f.id = v.film_id AND v.round_id = ?` (a film with
no matching vote gets the empty sum 0, as `COALESCE(SUM(...), 0)`
does). -/
def filmScore (db : DB) (r : Nat) (fid : Nat) : ℚ :=
  ((db.votes.filter (fun v => v.film_id == fid && v.round_id == r)).map voteScore).sum

/-- The comparison realised by `ORDER BY total_score DESC`: an entry may
precede another exactly when its score is at least the other's. -/
def scoreGE (a b : String × ℚ) : Prop := b.2 ≤ a.2

instance : DecidableRel scoreGE :=
  fun a b => inferInstanceAs (Decidable (b.2 ≤ a.2))

instance : IsTotal (String × ℚ) scoreGE :=
  ⟨fun a b => le_total b.2 a.2⟩

instance : IsTrans (String × ℚ) scoreGE :=
  ⟨fun _ _ _ h1 h2 => le_trans h2 h1⟩

/-- `get_results(round_id)`: one `(title, total_score)` row per film in
the catalog (the grouped LEFT JOIN), ordered by `total_score DESC`. -/
def getResults (r : Nat) (db : DB) : List (String × ℚ) :=
  List.insertionSort scoreGE (db.films.map (fun f => (f.title, filmScore db r f.id)))

/-- `get_winner(round_id)`: `results[0] if results else (None, 0.0)`. -/
def getWinner (r : Nat) (db : DB) : Option String × ℚ :=
  match getResults r db with
  | [] => (none, 0)
  | (t, s) :: _ => (some t, s)

/-- `create_new_round(name)`: `UPDATE rounds SET is_active = 0 WHERE
is_active = 1` (deactivating every active row), then `INSERT INTO
rounds (name, is_active) VALUES (?, 1)`, both under one commit. -/
def createNewRound (name : String) (db : DB) : Bool × DB :=
  (true, { db with
    rounds := (db.rounds.map (fun rd => { rd with is_active := false }))
                ++ [⟨db.nextRoundId, name, true⟩],
    nextRoundId := db.nextRoundId + 1 })

/-- `delete_film(film_id)`: `SELECT title FROM films WHERE id = ?` and
return `False` if absent; otherwise `DELETE FROM votes WHERE
film_id = ?` then `DELETE FROM films WHERE id = ?`, under one commit. -/
def deleteFilm (fid : Nat) (db : DB) : Bool × DB :=
  if db.films.any (fun f => f.id == fid) then
    (true, { db with
      votes := db.votes.filter (fun v => v.film_id != fid),
      films := db.films.filter (fun f => f.id != fid) })
  else
    (false, db)

/-- Number of rounds with `is_active = 1`. -/
def countActive (db : DB) : Nat :=
  (db.rounds.filter (fun rd => rd.is_active)).length

/-- A sequence of `create_new_round` calls applied in order. -/
def applyRounds (db : DB) (names : List String) : DB :=
  names.foldl (fun d n => (createNewRound n d).2) db

/-- A state with two rounds on record, round 1 closed and round 2
active, one film, and no votes yet. -/
def exRoundsDB : DB :=
  { films := [⟨1, "A"⟩],
    rounds := [⟨1, "Round 1", false⟩, ⟨2, "Round 2", true⟩],
    votes := [],
    nextFilmId := 2, nextRoundId := 3, nextVoteId := 1 }

/-- A state in which user 9 already voted in the active round 1. -/
def exVotedDB : DB :=
  { films := [], rounds := [⟨1, "Round 1", true⟩],
    votes := [⟨1, 9, 3, 1, false⟩],
    nextFilmId := 1, nextRoundId := 2, nextVoteId := 2 }

/-- A state with the single film "A" and no votes. -/
def exOneFilmDB : DB :=
  { films := [⟨1, "A"⟩], rounds := [⟨1, "Round 1", true⟩], votes := [],
    nextFilmId := 2, nextRoundId := 2, nextVoteId := 1 }

/-- A state with films "A" and "B" and one ballot on each in round 1. -/
def exTwoFilmsDB : DB :=
  { films := [⟨1, "A"⟩, ⟨2, "B"⟩],
    rounds := [⟨1, "Round 1", true⟩],
    votes := [⟨1, 1, 1, 1, true⟩, ⟨2, 2, 2, 1, false⟩],
    nextFilmId := 3, nextRoundId := 2, nextVoteId := 3 }

/-- Case analysis helper: `add_vote` when no round is active. -/
lemma addVote_none (u f : Nat) (sn : Bool) (db : DB)
    (hr : getActiveRound db = none) :
    addVote u f sn db = (VoteResult.noActiveRound, db) := by
  unfold addVote
  rw [hr]

/-- Case analysis helper: `add_vote` when the user already voted in the
active round. -/
lemma addVote_dup (u f : Nat) (sn : Bool) (db : DB) (r : Nat)
    (hr : getActiveRound db = some r)
    (hv : hasUserVotedInRound u r db = true) :
    addVote u f sn db = (VoteResult.duplicateVote, db) := by
  unfold addVote
  rw [hr]
  simp [hv]

/-- Case analysis helper: `add_vote` when the insert goes through. -/
lemma addVote_ok_eq (u f : Nat) (sn : Bool) (db : DB) (r : Nat)
    (hr : getActiveRound db = some r)
    (hv : hasUserVotedInRound u r db = false) :
    addVote u f sn db =
      (VoteResult.ok,
       { db with votes := db.votes ++ [⟨db.nextVoteId, u, f, r, sn⟩],
                 nextVoteId := db.nextVoteId + 1 }) := by
  unfold addVote
  rw [hr]
  simp [hv]

/-- Updating `votes` and `nextVoteId` leaves the active round as is. -/
lemma getActiveRound_set_votes (db : DB) (vs : List Vote) (n : Nat) :
    getActiveRound { db with votes := vs, nextVoteId := n } = getActiveRound db :=
  rfl

/-- C4 (counterexample): the claim says a cast ballot is recorded
against exactly the round id supplied by the caller.  But `add_vote`
has no round parameter at all: in a state where round 1 exists (closed)
and round 2 is active, the only cast operation available records the
ballot against round 2, the active round — no call can record against
the existing round 1. -/
theorem C4_no_supplied_round_counterexample :
    exRoundsDB.rounds.map (fun rd => rd.id) = [1, 2] ∧
    (addVote 5 1 true exRoundsDB).1 = VoteResult.ok ∧
    (addVote 5 1 true exRoundsDB).2.votes.map (fun v => v.round_id) = [2] := by
  decide

/-- C4 (amended): `add_vote` takes no round id; whenever an active
round `r` exists and the user has not voted in it, the cast succeeds
and the inserted ballot row carries exactly the active round id `r`,
resolved internally via `get_active_round`. -/
theorem C4_records_active_round (u f : Nat) (sn : Bool) (db : DB) (r : Nat)
    (hr : getActiveRound db = some r)
    (hv : hasUserVotedInRound u r db = false) :
    addVote u f sn db =
      (VoteResult.ok,
       { db with votes := db.votes ++ [⟨db.nextVoteId, u, f, r, sn⟩],
                 nextVoteId := db.nextVoteId + 1 }) :=
  addVote_ok_eq u f sn db r hr hv

/-- Witness for C4: the amended statement at the concrete state
`exRoundsDB`, user 5, film 1, seen. -/
theorem C4_records_active_round_witness :
    getActiveRound exRoundsDB = some 2 ∧
    hasUserVotedInRound 5 2 exRoundsDB = false ∧
    addVote 5 1 true exRoundsDB =
      (VoteResult.ok,
       { exRoundsDB with
           votes := exRoundsDB.votes ++ [⟨exRoundsDB.nextVoteId, 5, 1, 2, true⟩],
           nextVoteId := exRoundsDB.nextVoteId + 1 }) :=
  ⟨by decide, by decide,
   C4_records_active_round 5 1 true exRoundsDB 2 (by decide) (by decide)⟩

/-- C5: the schema declares `FOREIGN KEY (film_id) REFERENCES films
(id)`, and the claim says a cast with a dangling item id fails with
NotFound; but sqlite3 never has `PRAGMA foreign_keys = ON` issued, so
on the bootstrapped store (no films at all) a vote for film 999
succeeds and the dangling ballot row is inserted. -/
theorem C5_dangling_film_insert_succeeds :
    initState.films = [] ∧
    (addVote 7 999 true initState).1 = VoteResult.ok ∧
    (addVote 7 999 true initState).2.votes = [⟨1, 7, 999, 1, true⟩] := by
  decide

/-- C6 (counterexample): the claim says an empty-after-trimming title
is rejected with InvalidInput before any store access; but
`add_film("")` on the bootstrapped store succeeds and inserts a film
row with the empty title. -/
theorem C6_empty_title_accepted_counterexample :
    "".data.all Char.isWhitespace = true ∧
    (addFilm "" initState).1 = true ∧
    (addFilm "" initState).2.films = [⟨1, ""⟩] := by
  decide

/-- C6 (amended): `add_film` performs no input validation at all: any
title — in particular one that is empty after trimming whitespace —
that is not already present verbatim is inserted and the call
succeeds; only an exact duplicate title is rejected. -/
theorem C6_no_title_validation (title : String) (db : DB)
    (ht : title.data.all Char.isWhitespace = true)
    (hd : db.films.all (fun f => f.title != title) = true) :
    addFilm title db =
      (true, { db with films := db.films ++ [⟨db.nextFilmId, title⟩],
                       nextFilmId := db.nextFilmId + 1 }) := by
  unfold addFilm
  have hany : db.films.any (fun f => f.title == title) = false := by
    rw [List.any_eq_false]
    intro f hf
    have h1 := List.all_eq_true.mp hd f hf
    simpa using h1
  rw [hany]
  simp

/-- Witness for C6: the amended statement at the whitespace-only title
" " on the bootstrapped store. -/
theorem C6_no_title_validation_witness :
    " ".data.all Char.isWhitespace = true ∧
    initState.films.all (fun f => f.title != " ") = true ∧
    addFilm " " initState =
      (true, { initState with films := initState.films ++ [⟨initState.nextFilmId, " "⟩],
                              nextFilmId := initState.nextFilmId + 1 }) :=
  ⟨by decide, by decide, C6_no_title_validation " " initState (by decide) (by decide)⟩

/-- C1: once a cast by user `u` has succeeded (necessarily recorded in
the active round), every subsequent cast by `u` while that state
stands fails on the `UNIQUE(user_id, round_id)` constraint — result
`duplicateVote` — and changes nothing, whatever film the second ballot
targets. -/
theorem C1_second_cast_duplicate (u f1 f2 : Nat) (s1 s2 : Bool) (db db' : DB)
    (h : addVote u f1 s1 db = (VoteResult.ok, db')) :
    addVote u f2 s2 db' = (VoteResult.duplicateVote, db') := by
  cases hr : getActiveRound db with
  | none =>
    rw [addVote_none u f1 s1 db hr] at h
    simp at h
  | some r =>
    by_cases hv : hasUserVotedInRound u r db
    · rw [addVote_dup u f1 s1 db r hr hv] at h
      simp at h
    · rw [addVote_ok_eq u f1 s1 db r hr (by simpa using hv)] at h
      have h2 := congrArg Prod.snd h
      simp only at h2
      subst h2
      refine addVote_dup u f2 s2 _ r ?_ ?_
      · rw [getActiveRound_set_votes]
        exact hr
      · simp [hasUserVotedInRound, List.any_append]

/-- Witness for C1: a concrete double cast from the bootstrapped
state. -/
def exAfterFirstDB : DB :=
  { films := [], rounds := [⟨1, "Round 1", true⟩],
    votes := [⟨1, 5, 1, 1, true⟩],
    nextFilmId := 1, nextRoundId := 2, nextVoteId := 2 }

theorem C1_second_cast_duplicate_witness :
    addVote 5 1 true initState = (VoteResult.ok, exAfterFirstDB) ∧
    addVote 5 2 false exAfterFirstDB = (VoteResult.duplicateVote, exAfterFirstDB) :=
  ⟨by decide,
   C1_second_cast_duplicate 5 1 2 true false initState exAfterFirstDB (by decide)⟩

/-- C8: a failed cast (for whichever reason: no active round, or the
uniqueness constraint) leaves the state untouched, and in particular
every round's results are the same before and after the attempt. -/
theorem C8_failed_cast_no_change (u f : Nat) (sn : Bool) (db : DB)
    (h : (addVote u f sn db).1 ≠ VoteResult.ok) :
    (addVote u f sn db).2 = db ∧
    ∀ r, getResults r (addVote u f sn db).2 = getResults r db := by
  have hstate : (addVote u f sn db).2 = db := by
    cases hr : getActiveRound db with
    | none => rw [addVote_none u f sn db hr]
    | some r =>
      by_cases hv : hasUserVotedInRound u r db
      · rw [addVote_dup u f sn db r hr hv]
      · exfalso
        apply h
        rw [addVote_ok_eq u f sn db r hr (by simpa using hv)]
  exact ⟨hstate, fun r => by rw [hstate]⟩

/-- Witness for C8: user 9 attempts a second ballot in round 1 of
`exVotedDB`; the attempt fails and round 1's results are unchanged. -/
theorem C8_failed_cast_no_change_witness :
    (addVote 9 4 true exVotedDB).1 ≠ VoteResult.ok ∧
    (addVote 9 4 true exVotedDB).2 = exVotedDB ∧
    getResults 1 (addVote 9 4 true exVotedDB).2 = getResults 1 exVotedDB :=
  ⟨by decide,
   (C8_failed_cast_no_change 9 4 true exVotedDB (by decide)).1,
   (C8_failed_cast_no_change 9 4 true exVotedDB (by decide)).2 1⟩

/-- C9: `get_winner` is `results[0]` of `get_results` whenever results
are nonempty, and the sentinel `(None, 0.0)` — not an error — when the
catalog (hence the result list) is empty. -/
theorem C9_winner_head_or_sentinel (r : Nat) (db : DB) :
    (∀ t s rest, getResults r db = (t, s) :: rest → getWinner r db = (some t, s)) ∧
    (db.films = [] → getWinner r db = (none, 0)) := by
  constructor
  · intro t s rest hres
    unfold getWinner
    rw [hres]
  · intro hfilms
    have hres : getResults r db = [] := by
      unfold getResults
      rw [hfilms]
      rfl
    unfold getWinner
    rw [hres]

/-- Witness for C9: the winner at the one-film state, and the sentinel
at the bootstrapped (empty-catalog) state. -/
theorem C9_winner_head_or_sentinel_witness :
    getWinner 1 exOneFilmDB = (some "A", 0) ∧
    getWinner 1 initState = (none, 0) :=
  ⟨(C9_winner_head_or_sentinel 1 exOneFilmDB).1 "A" 0 [] (by decide),
   (C9_winner_head_or_sentinel 1 initState).2 rfl⟩

/-- C2: the result list of `get_results` has exactly one entry per film
of the catalog (it is a permutation of the per-film score table built
by the grouped LEFT JOIN), it is ordered by score descending, and a
film with no ballot in the round appears with score 0. -/
theorem C2_results_complete_sorted (r : Nat) (db : DB) :
    (getResults r db).Perm (db.films.map (fun f => (f.title, filmScore db r f.id))) ∧
    List.Sorted scoreGE (getResults r db) ∧
    ∀ f ∈ db.films,
      db.votes.filter (fun v => v.film_id == f.id && v.round_id == r) = [] →
        (f.title, (0 : ℚ)) ∈ getResults r db := by
  unfold getResults
  refine ⟨List.perm_insertionSort scoreGE _, List.sorted_insertionSort scoreGE _, ?_⟩
  intro f hf hempty
  have hscore : filmScore db r f.id = 0 := by
    unfold filmScore
    rw [hempty]
    rfl
  have hmem : (f.title, filmScore db r f.id) ∈
      db.films.map (fun g => (g.title, filmScore db r g.id)) :=
    List.mem_map_of_mem _ hf
  rw [hscore] at hmem
  exact ((List.perm_insertionSort scoreGE _).mem_iff).mpr hmem

/-- Witness for C2: at `exTwoFilmsDB` the round-1 results are sorted,
and in round 2 (no ballots) film "A" shows up with score 0. -/
theorem C2_results_complete_sorted_witness :
    List.Sorted scoreGE (getResults 1 exTwoFilmsDB) ∧
    ("A", (0 : ℚ)) ∈ getResults 2 exTwoFilmsDB :=
  ⟨(C2_results_complete_sorted 1 exTwoFilmsDB).2.1,
   (C2_results_complete_sorted 2 exTwoFilmsDB).2.2 ⟨1, "A"⟩ (by decide) (by decide)⟩

/-- Deactivating every round leaves no active row. -/
lemma filter_active_map_deactivate (rounds : List Round) :
    (rounds.map (fun rd => { rd with is_active := false })).filter
      (fun rd => rd.is_active) = [] := by
  induction rounds with
  | nil => rfl
  | cons rd rds ih => simp [ih]

/-- After any single `create_new_round` there is exactly one active
round: the freshly inserted one. -/
lemma countActive_createNewRound (name : String) (db : DB) :
    countActive (createNewRound name db).2 = 1 := by
  unfold countActive createNewRound
  rw [List.filter_append, filter_active_map_deactivate]
  rfl

/-- A run of `create_new_round` calls preserves the one-active-round
invariant. -/
lemma applyRounds_countActive (names : List String) :
    ∀ db : DB, countActive db = 1 → countActive (applyRounds db names) = 1 := by
  induction names with
  | nil => intro db h; exact h
  | cons n ns ih => intro db _; exact ih _ (countActive_createNewRound n db)

/-- C3: from the bootstrapped state, any sequence of `create_new_round`
calls keeps exactly one round active; and each call produces the old
ledger with every active flag cleared plus one new active row, in one
step. -/
theorem C3_one_active_round_reachable (names : List String) :
    countActive (applyRounds initState names) = 1 ∧
    ∀ name, (createNewRound name (applyRounds initState names)).2.rounds =
      ((applyRounds initState names).rounds.map (fun rd => { rd with is_active := false }))
        ++ [⟨(applyRounds initState names).nextRoundId, name, true⟩] :=
  ⟨applyRounds_countActive names initState (by decide), fun _ => rfl⟩

/-- C10: `create_new_round` deactivates every currently active round
(not only one), so from any state — even one with zero or several
active rounds — the state right after it has exactly one active round,
namely the freshly inserted row. -/
theorem C10_open_round_resets_active (name : String) (db : DB) :
    countActive (createNewRound name db).2 = 1 ∧
    ∀ rd ∈ (createNewRound name db).2.rounds, rd.is_active = true →
      rd = ⟨db.nextRoundId, name, true⟩ := by
  refine ⟨countActive_createNewRound name db, ?_⟩
  intro rd hmem hact
  simp only [createNewRound, List.mem_append] at hmem
  cases hmem with
  | inl h =>
    obtain ⟨rd0, _, rfl⟩ := List.mem_map.mp h
    simp at hact
  | inr h =>
    simpa using h

/-- A corrupted ledger with two simultaneously active rounds. -/
def exCorruptDB : DB :=
  { films := [], rounds := [⟨1, "Round 1", true⟩, ⟨2, "Round 2", true⟩],
    votes := [], nextFilmId := 1, nextRoundId := 3, nextVoteId := 1 }

/-- Witness for C10: opening a round on the corrupted two-active state
leaves exactly one active round, the new row 3. -/
theorem C10_open_round_resets_active_witness :
    countActive (createNewRound "Round 3" exCorruptDB).2 = 1 ∧
    (⟨3, "Round 3", true⟩ : Round) ∈ (createNewRound "Round 3" exCorruptDB).2.rounds ∧
    (⟨3, "Round 3", true⟩ : Round) = ⟨exCorruptDB.nextRoundId, "Round 3", true⟩ :=
  ⟨(C10_open_round_resets_active "Round 3" exCorruptDB).1, by decide,
   (C10_open_round_resets_active "Round 3" exCorruptDB).2
     ⟨3, "Round 3", true⟩ (by decide) rfl⟩

/-- Filtering by a weaker predicate first does not change a filter by a
stronger one. -/
lemma filter_comm_of_imp {α : Type} (p q : α → Bool)
    (hpq : ∀ a, p a = true → q a = true) :
    ∀ l : List α, (l.filter q).filter p = l.filter p := by
  intro l
  induction l with
  | nil => rfl
  | cons a as ih =>
    by_cases hp : p a = true
    · have hq := hpq a hp
      simp [List.filter_cons, hq, hp, ih]
    · have hp' : p a = false := by simpa using hp
      cases hq : q a
      · simp [List.filter_cons, hq, hp', ih]
      · simp [List.filter_cons, hq, hp', ih]

/-- C7: `delete_film` fails (returning `False`, changing nothing) when
the id is absent; when present it removes, in one commit, exactly the
ballots on that film and then the film itself, leaving the round
ledger, every other film, and every ballot on other films unchanged —
so every other film's score in every round is unchanged. -/
theorem C7_delete_film_cascade (fid r : Nat) (db : DB) :
    ((∀ f ∈ db.films, f.id ≠ fid) → deleteFilm fid db = (false, db)) ∧
    ((∃ f ∈ db.films, f.id = fid) →
      (deleteFilm fid db).1 = true ∧
      (deleteFilm fid db).2.rounds = db.rounds ∧
      (deleteFilm fid db).2.films = db.films.filter (fun f => f.id != fid) ∧
      (deleteFilm fid db).2.votes = db.votes.filter (fun v => v.film_id != fid) ∧
      ∀ g ∈ db.films, g.id ≠ fid →
        filmScore (deleteFilm fid db).2 r g.id = filmScore db r g.id) := by
  constructor
  · intro h
    have hany : db.films.any (fun f => f.id == fid) = false := by
      rw [List.any_eq_false]
      intro f hf
      simpa using h f hf
    unfold deleteFilm
    rw [hany]
    simp
  · rintro ⟨f, hf, hfid⟩
    have hany : db.films.any (fun g => g.id == fid) = true :=
      List.any_eq_true.mpr ⟨f, hf, by simpa using hfid⟩
    have hstate : (deleteFilm fid db).2 =
        { db with votes := db.votes.filter (fun v => v.film_id != fid),
                  films := db.films.filter (fun g => g.id != fid) } := by
      unfold deleteFilm
      rw [if_pos hany]
    have hfst : (deleteFilm fid db).1 = true := by
      unfold deleteFilm
      rw [if_pos hany]
    refine ⟨hfst, by rw [hstate], by rw [hstate], by rw [hstate], ?_⟩
    intro g hg hne
    rw [hstate]
    have himp : ∀ v : Vote,
        (v.film_id == g.id && v.round_id == r) = true → (v.film_id != fid) = true := by
      intro v hv
      rw [Bool.and_eq_true] at hv
      have h1 : v.film_id = g.id := by simpa using hv.1
      simp only [h1, ne_eq, bne_iff_ne]
      exact hne
    unfold filmScore
    show (((db.votes.filter (fun v => v.film_id != fid)).filter
        (fun v => v.film_id == g.id && v.round_id == r)).map voteScore).sum =
      ((db.votes.filter (fun v => v.film_id == g.id && v.round_id == r)).map voteScore).sum
    rw [filter_comm_of_imp _ _ himp]

/-- Witness for C7: deleting the absent film 99 fails and changes
nothing; deleting film 1 of `exTwoFilmsDB` removes exactly its row and
its ballot, keeps the round ledger, and leaves film 2's round-1 score
as it was. -/
theorem C7_delete_film_cascade_witness :
    deleteFilm 99 exTwoFilmsDB = (false, exTwoFilmsDB) ∧
    (deleteFilm 1 exTwoFilmsDB).1 = true ∧
    (deleteFilm 1 exTwoFilmsDB).2.rounds = exTwoFilmsDB.rounds ∧
    (deleteFilm 1 exTwoFilmsDB).2.films = exTwoFilmsDB.films.filter (fun f => f.id != 1) ∧
    (deleteFilm 1 exTwoFilmsDB).2.votes = exTwoFilmsDB.votes.filter (fun v => v.film_id != 1) ∧
    filmScore (deleteFilm 1 exTwoFilmsDB).2 1 2 = filmScore exTwoFilmsDB 1 2 := by
  have h := (C7_delete_film_cascade 1 1 exTwoFilmsDB).2 ⟨⟨1, "A"⟩, by decide, rfl⟩
  exact ⟨(C7_delete_film_cascade 99 1 exTwoFilmsDB).1 (by decide),
         h.1, h.2.1, h.2.2.1, h.2.2.2.1,
         h.2.2.2.2 ⟨2, "B"⟩ (by decide) (by decide)⟩
